import Mathlib

/-!
Verification of the publishing queue-and-delivery engine of the `tgf`
repository (`publish_bot.py`, `publish.py`) against its natural-language
specification.  The Python sources are shallowly embedded below: text is a
list of characters, the two `asyncio.Queue` lanes are lists, one iteration of
each worker loop is a pure function parameterised by an environment that
supplies the outcomes of the external Telegram calls, and Python exceptions
are `Except` values that the embedded `try`/`except` blocks discharge.
-/

set_option maxHeartbeats 1000000

namespace TGF

/-- Whitespace characters of Python's `str.strip()` and of the regex class
`\s` (ASCII fragment, which is all the sources rely on). -/
def pyIsSpace (c : Char) : Bool :=
  c = ' ' || c = '\t' || c = '\n' || c = '\r' || c = '\x0b' || c = '\x0c'

/-- Word characters of the Python regex class `\w` (ASCII fragment). -/
def pyIsWord (c : Char) : Bool :=
  ('a' ≤ c && c ≤ 'z') || ('A' ≤ c && c ≤ 'Z') || ('0' ≤ c && c ≤ '9') || c = '_'

/-- Text is modelled as a list of characters. -/
abbrev Str := List Char

/-- Helper turning a Lean string literal into the character-list model. -/
def str (s : String) : Str := s.data

/-- Python `str.strip()`: remove whitespace from both ends. -/
def stripPy (l : Str) : Str :=
  ((l.dropWhile pyIsSpace).reverse.dropWhile pyIsSpace).reverse

/-- Worker for `reSubDel`: scan left to right; `m` reports the length
(at least 1) of a regex match starting at the current position, which is
deleted (replaced by the empty string), and scanning resumes after it —
exactly `re.sub(pattern, '', s)` for the self-contained token patterns used
in the sources.  The fuel argument starts at the length of the list; every
step consumes at least one character, so the fuel never runs out. -/
def reSubGo (m : Str → Option Nat) : Nat → Str → Str
  | 0, l => l
  | _ + 1, [] => []
  | fuel + 1, c :: cs =>
    match m (c :: cs) with
    | some n => reSubGo m fuel (List.drop (n - 1) cs)
    | none => c :: reSubGo m fuel cs

/-- Python `re.sub(pattern, '', s)` for a token matcher `m`. -/
def reSubDel (m : Str → Option Nat) (l : Str) : Str := reSubGo m l.length l

/-- Matcher for the regex `http\S+` at the head of the text: the literal
`http` followed by one or more non-whitespace characters (greedy). -/
def matchHttp (l : Str) : Option Nat :=
  match l with
  | 'h' :: 't' :: 't' :: 'p' :: rest =>
    let run := rest.takeWhile (fun c => !pyIsSpace c)
    if run = [] then none else some (4 + run.length)
  | _ => none

/-- Matcher for the regex `@\w+` (publish_bot.py caption cleaner). -/
def matchMentionW (l : Str) : Option Nat :=
  match l with
  | '@' :: rest =>
    let run := rest.takeWhile pyIsWord
    if run = [] then none else some (1 + run.length)
  | _ => none

/-- Matcher for the regex `@\S+` (publish.py `TextProcessor`). -/
def matchMentionS (l : Str) : Option Nat :=
  match l with
  | '@' :: rest =>
    let run := rest.takeWhile (fun c => !pyIsSpace c)
    if run = [] then none else some (1 + run.length)
  | _ => none

/-- Python `str.lower()` (ASCII fragment, via `Char.toLower`). -/
def lowerStr (l : Str) : Str := l.map Char.toLower

/-- Does `needle` start `hay`? -/
def startsWithStr : Str → Str → Bool
  | [], _ => true
  | _ :: _, [] => false
  | a :: as, b :: bs => a == b && startsWithStr as bs

/-- Python substring test `needle in hay`. -/
def containsStr (needle : Str) : Str → Bool
  | [] => startsWithStr needle []
  | c :: t => startsWithStr needle (c :: t) || containsStr needle t

/-- Python truthiness choice `a or b` for an optional string: `None` and the
empty string are falsy. -/
def pyOrElse (a : Option Str) (b : Str) : Str :=
  match a with
  | some s => if s = [] then b else s
  | none => b

/-- The fields of an incoming Telegram `Message` that the engine reads:
`text`, `caption`, `media_group_id` (the album marker) and whether the
message carries media. -/
structure Msg where
  text : Option Str
  caption : Option Str
  media_group_id : Option Nat
  media : Bool
deriving DecidableEq

/-- The two in-memory lanes of publish_bot.py: `vip_queue` (priority) and
`msg_queue` (normal), each an `asyncio.Queue` in insertion order. -/
structure QState where
  vip_queue : List Msg
  msg_queue : List Msg
deriving DecidableEq

/-- The dequeue decision at the top of `worker_engine` (publish_bot.py lines
856-868): if the VIP queue is non-empty its head is taken, otherwise the
normal queue's head; `none` models both lanes empty, in which case the
running code suspends inside `msg_queue.get()`.  Returns the message, the
`is_vip` flag and the remaining queues. -/
def fetchMessage (s : QState) : Option (Msg × Bool × QState) :=
  match s.vip_queue with
  | m :: rest => some (m, true, ⟨rest, s.msg_queue⟩)
  | [] =>
    match s.msg_queue with
    | m :: rest => some (m, false, ⟨[], rest⟩)
    | [] => none

/-- An event of the queue subsystem: a producer enqueue into one lane, or a
consumer dequeue by the worker. -/
inductive QEvent where
  | enq (m : Msg) (vip : Bool)
  | deq
deriving DecidableEq

/-- One queue event: enqueues append to the chosen lane (`asyncio.Queue.put`);
a dequeue removes per `fetchMessage` and emits the taken message with its
lane flag (a dequeue against two empty lanes completes nothing). -/
def stepQ (s : QState) : QEvent → QState × List (Msg × Bool)
  | .enq m true => (⟨s.vip_queue ++ [m], s.msg_queue⟩, [])
  | .enq m false => (⟨s.vip_queue, s.msg_queue ++ [m]⟩, [])
  | .deq =>
    match fetchMessage s with
    | some (m, b, s') => (s', [(m, b)])
    | none => (s, [])

/-- Run a single-consumer trace of queue events, collecting dequeued items. -/
def runQ (s : QState) : List QEvent → QState × List (Msg × Bool)
  | [] => (s, [])
  | e :: es =>
    let p := stepQ s e
    let r := runQ p.1 es
    (r.1, p.2 ++ r.2)

/-- The messages a trace enqueues into the given lane, in order. -/
def enqueuedLane (vip : Bool) (tr : List QEvent) : List Msg :=
  tr.filterMap fun e =>
    match e with
    | .enq m b => if b = vip then some m else none
    | .deq => none

/-- The messages dequeued from the given lane, in order. -/
def dequeuedLane (vip : Bool) (outs : List (Msg × Bool)) : List Msg :=
  outs.filterMap fun p => if p.2 = vip then some p.1 else none

/-- Projection of one lane of the queue state. -/
def laneOf (vip : Bool) (s : QState) : List Msg :=
  if vip then s.vip_queue else s.msg_queue

/-- The album-aware sticker decision of `worker_engine` (publish_bot.py lines
894-904): given the tracked `last_processed_album_id` and the message's
`media_group_id`, return `should_send_sticker` and the new tracker value.
An item with a group marker equal to the tracker is an album continuation
(no sticker, tracker kept); a new marker sends and records it; an ungrouped
item sends and clears the tracker. -/
def stickerStep (last_processed_album_id : Option Nat) (media_group_id : Option Nat) :
    Bool × Option Nat :=
  match media_group_id with
  | some g =>
    if some g = last_processed_album_id then (false, last_processed_album_id)
    else (true, some g)
  | none => (true, none)

/-- Sticker decisions for a list of group markers processed in order. -/
def stickerDecisions (cursor : Option Nat) : List (Option Nat) → List Bool
  | [] => []
  | g :: gs =>
    let p := stickerStep cursor g
    p.1 :: stickerDecisions p.2 gs

/-- Sticker decisions of the engine for a run of messages, starting from the
initial `last_processed_album_id = None`. -/
def engineStickerDecisions (msgs : List Msg) : List Bool :=
  stickerDecisions none (msgs.map Msg.media_group_id)

/-- The VIP routing test of `message_processor` (publish_bot.py lines
1326-1334 and 1520-1529): `caption = message.caption or ""` and then the
case-insensitive substring tests for `#urgent` and `#vip`.  The text body is
never consulted. -/
def is_vip_intake (m : Msg) : Bool :=
  let caption := pyOrElse m.caption []
  containsStr (str "#urgent") (lowerStr caption) ||
    containsStr (str "#vip") (lowerStr caption)

/-- Intake enqueue of `message_processor`: VIP captions go to `vip_queue`,
everything else to `msg_queue`. -/
def message_processor_enqueue (q : QState) (m : Msg) : QState :=
  if is_vip_intake m then ⟨q.vip_queue ++ [m], q.msg_queue⟩
  else ⟨q.vip_queue, q.msg_queue ++ [m]⟩

/-- The caption-cleaner branch of `worker_engine` (publish_bot.py lines
921-927): delete `http\S+` tokens, delete `@\w+` mentions, then strip. -/
def cleanCaption (t : Str) : Str :=
  stripPy (reSubDel matchMentionW (reSubDel matchHttp t))

/-- Content preparation of `worker_engine` (publish_bot.py lines 913-936):
optional cleaning (only when the cleaner is ON and the text non-empty),
then the footer merge.  No strip is applied outside the cleaner branch. -/
def prepareFinalText (cleanerOn : Bool) (footer : Str) (raw : Str) : Str :=
  let t := if cleanerOn ∧ raw ≠ [] then cleanCaption raw else raw
  if footer ≠ str "NONE" ∧ footer ≠ [] then
    if t ≠ [] then t ++ str "\n\n" ++ footer else footer
  else t

/-- The configuration values read by publish.py's `TextProcessor` (the
key-value store returns `None` for a missing key, hence the options). -/
structure PyConfig where
  clean_links : Option String
  header : Option Str
  footer : Option Str

/-- publish.py `TextProcessor.apply_formatting` (lines 308-329): empty text
short-circuits to the empty string; otherwise optional link/mention
deletion (`http\S+`, `@\S+`), header and footer merges, and a final strip. -/
def apply_formatting (cfg : PyConfig) (text : Str) : Str :=
  if text = [] then []
  else
    let t1 :=
      if cfg.clean_links = some "1" then
        reSubDel matchMentionS (reSubDel matchHttp text)
      else text
    let t2 :=
      match cfg.header with
      | some h => if h ≠ [] ∧ h ≠ str "NONE" then h ++ str "\n\n" ++ t1 else t1
      | none => t1
    let t3 :=
      match cfg.footer with
      | some f => if f ≠ [] ∧ f ≠ str "NONE" then t2 ++ str "\n\n" ++ f else t2
      | none => t2
    stripPy t3

/-- The settings `worker_engine` and `send_smart_sticker` read from the
store each cycle, after applying the seeded defaults. -/
structure Settings where
  target_channel : String
  mode : String
  footer : Str
  caption_cleaner : String
  delay : Nat
  sticker_state : String
  sticker_mode : String
  single_sticker_id : String

/-- A sticker actually delivered: by stored `file_id` (SINGLE mode and
publish.py's cache) or by a document of a resolved pack. -/
inductive StickerSent where
  | byFileId (fileId : String)
  | byPackDoc (packShort : String) (docId : Nat)
deriving DecidableEq

/-- Environment of one `send_smart_sticker` call: the outcomes of the random
choices and of the Telegram calls it makes.  `resolve` is
`GetStickerSet`, with `none` standing for a raised error. -/
structure StickerEnv where
  packIdx : Nat
  resolve : String → Option (List Nat)
  docIdx : Nat
  rawSendOk : Bool
  singleSendOk : Bool

/-- Python `pack_name.split('/')[-1]`. -/
def shortNameOf (pack : String) : String := (pack.splitOn "/").getLastD ""

/-- Body of `send_smart_sticker` (publish_bot.py lines 757-829), i.e. the
code inside its `try`: an `Except` error is a Python exception escaping the
body.  Mirrors the source: OFF returns silently; SINGLE with a configured
file id sends it (a send failure raises); otherwise fall through to the
random-pack branch: no packs returns silently, pack resolution may raise,
an empty pack returns silently, and the raw send may raise.  The payload
records the sticker sent, if any. -/
def send_smart_sticker_body (st : Settings) (packs : List String) (env : StickerEnv) :
    Except Unit (Option StickerSent) :=
  if st.sticker_state = "OFF" then .ok none
  else
    let singleBranch : Option (Except Unit (Option StickerSent)) :=
      if st.sticker_mode = "SINGLE" ∧ st.single_sticker_id ≠ "" then
        some (if env.singleSendOk then .ok (some (.byFileId st.single_sticker_id))
              else .error ())
      else none
    match singleBranch with
    | some r => r
    | none =>
      if packs = [] then .ok none
      else
        let pack := packs.getD (env.packIdx % packs.length) ""
        let short := shortNameOf pack
        match env.resolve short with
        | none => .error ()
        | some docs =>
          if docs = [] then .ok none
          else if env.rawSendOk then
            .ok (some (.byPackDoc short (docs.getD (env.docIdx % docs.length) 0)))
          else .error ()

/-- `send_smart_sticker` as called by the worker: the surrounding
`except Exception: pass` turns every raised error into a silent skip. -/
def send_smart_sticker (st : Settings) (packs : List String) (env : StickerEnv) :
    Option StickerSent :=
  match send_smart_sticker_body st packs env with
  | .ok r => r
  | .error _ => none

/-- Decimal digit-string value, `none` on the empty string or a non-digit. -/
def digitsVal (l : List Char) : Option Nat :=
  if l = [] then none
  else
    l.foldl
      (fun acc c =>
        match acc with
        | none => none
        | some n => if c.isDigit then some (n * 10 + (c.toNat - '0'.toNat)) else none)
      (some 0)

/-- Python `int(s)` on the strings the settings store holds: an optional
minus sign followed by decimal digits; `none` models the raised
`ValueError`. -/
def pyIntOf (s : String) : Option Int :=
  match s.data with
  | '-' :: rest => (digitsVal rest).map fun n => -(n : Int)
  | l => (digitsVal l).map fun n => (n : Int)

/-- Outcome of the primary delivery call (`message.forward` / `message.copy`
/ `app.send_message`): success, a `FloodWait` carrying `retry_after`
seconds, a `RPCError`, or any other exception. -/
inductive PrimaryOutcome where
  | ok
  | floodWait (seconds : Nat)
  | rpcError
  | genericError
deriving DecidableEq

/-- Environment of one worker cycle: how many 5-second pause polls the cycle
observes before `is_paused` clears, the sticker-pack rows currently in the
store, the sticker-call outcomes, and the primary-delivery outcome. -/
structure Env where
  pausePolls : Nat
  packs : List String
  sticker : StickerEnv
  primary : PrimaryOutcome

/-- A message handed to the Telegram client during a cycle. -/
inductive SendAction where
  | stickerSend (target : Int) (s : StickerSent)
  | forwardMsg (target : Int) (m : Msg)
  | copyMsg (target : Int) (m : Msg) (caption : Str)
  | sendText (target : Int) (text : Str)
deriving DecidableEq

/-- Is the action a primary-content delivery (not a sticker)? -/
def isPrimary : SendAction → Bool
  | .stickerSend _ _ => false
  | _ => true

/-- The primary-content deliveries among the actions of a cycle. -/
def primarySends (l : List SendAction) : List SendAction := l.filter isPrimary

/-- The send actions a `send_smart_sticker` outcome contributes. -/
def stickerSendsOf (target : Int) (o : Option StickerSent) : List SendAction :=
  match o with
  | some s => [SendAction.stickerSend target s]
  | none => []

/-- The settle sleeps a `send_smart_sticker` outcome contributes (1 second
after an actual send). -/
def stickerSleepsOf (o : Option StickerSent) : List Nat :=
  match o with
  | some _ => [1]
  | none => []

/-- Result of one completed worker-loop iteration. -/
structure CycleResult where
  q : QState
  cursor : Option Nat
  sent : List SendAction
  sleeps : List Nat
  processedInc : Nat
  errorsInc : Nat
  primaryAttempted : Bool
deriving DecidableEq

/-- One iteration of `worker_engine` (publish_bot.py lines 856-983).
Returns `none` when both lanes are empty (the loop suspends in
`msg_queue.get()`).  Otherwise it mirrors the body in order: the pause-poll
loop; the `target_channel == "0"` drop (before the album logic — the album
tracker is untouched); `int(target_raw)` (a parse failure is a Python
exception landing in the generic `except`); the album/sticker step with
`send_smart_sticker` and its 1-second settle sleep on an actual send; the
caption preparation; publishing by `forward` or `copy`; and the `except`
arms: success sleeps `delay`, `FloodWait e` sleeps `e.value` with no retry
and no re-enqueue, `RPCError` and generic exceptions count an error.  The
`finally: task_done` has no effect on this state.  `sleeps` lists every
`asyncio.sleep` of the iteration in order. -/
def worker_engine_cycle (st : Settings) (env : Env) (q : QState)
    (last_processed_album_id : Option Nat) : Option CycleResult :=
  match fetchMessage q with
  | none => none
  | some (m, _isVip, q') =>
    let pauseSleeps := List.replicate env.pausePolls 5
    if st.target_channel = "0" then
      some ⟨q', last_processed_album_id, [], pauseSleeps, 0, 0, false⟩
    else
      match pyIntOf st.target_channel with
      | none => some ⟨q', last_processed_album_id, [], pauseSleeps, 0, 1, false⟩
      | some target =>
        let dec := stickerStep last_processed_album_id m.media_group_id
        let stickerRes :=
          if dec.1 then send_smart_sticker st env.packs env.sticker else none
        let stickerSends := stickerSendsOf target stickerRes
        let stickerSleeps := stickerSleepsOf stickerRes
        let finalText :=
          prepareFinalText (st.caption_cleaner = "ON") st.footer
            (pyOrElse m.text (pyOrElse m.caption []))
        let act :=
          if st.mode = "forward" then SendAction.forwardMsg target m
          else SendAction.copyMsg target m finalText
        match env.primary with
        | .ok =>
          some ⟨q', dec.2, stickerSends ++ [act],
            pauseSleeps ++ stickerSleeps ++ [st.delay], 1, 0, true⟩
        | .floodWait r =>
          some ⟨q', dec.2, stickerSends,
            pauseSleeps ++ stickerSleeps ++ [r], 0, 0, true⟩
        | .rpcError =>
          some ⟨q', dec.2, stickerSends, pauseSleeps ++ stickerSleeps, 0, 1, true⟩
        | .genericError =>
          some ⟨q', dec.2, stickerSends, pauseSleeps ++ stickerSleeps, 0, 1, true⟩

/-- Program counter of the dequeue preamble of `worker_engine`, refining
`fetchMessage` to where the coroutine actually suspends: `checkVip` is the
`vip_queue.empty()` test, `getVip` is `await vip_queue.get()`, `getNormal`
is `await msg_queue.get()`, and `processing` holds the fetched message. -/
inductive WPC where
  | checkVip
  | getVip
  | getNormal
  | processing (m : Msg) (isVip : Bool)
deriving DecidableEq

/-- State of the dequeue preamble: program counter plus the two lanes. -/
structure WState where
  pc : WPC
  vip_queue : List Msg
  msg_queue : List Msg
deriving DecidableEq

/-- One engine step of the dequeue preamble.  `none` means the coroutine
cannot advance: in particular at `getNormal` with an empty normal lane it
stays suspended inside `msg_queue.get()` no matter what the VIP lane holds.
`processing` is outside this model's scope. -/
def engineStep (s : WState) : Option WState :=
  match s.pc with
  | .checkVip =>
    some ⟨if s.vip_queue.isEmpty then .getNormal else .getVip, s.vip_queue, s.msg_queue⟩
  | .getVip =>
    match s.vip_queue with
    | m :: rest => some ⟨.processing m true, rest, s.msg_queue⟩
    | [] => none
  | .getNormal =>
    match s.msg_queue with
    | m :: rest => some ⟨.processing m false, s.vip_queue, rest⟩
    | [] => none
  | .processing _ _ => none

/-- A producer enqueue while the engine is at some preamble point. -/
def enqW (s : WState) (m : Msg) (vip : Bool) : WState :=
  if vip then ⟨s.pc, s.vip_queue ++ [m], s.msg_queue⟩
  else ⟨s.pc, s.vip_queue, s.msg_queue ++ [m]⟩

/-- Python string truthiness for an optional string. -/
def truthyStr (o : Option Str) : Bool :=
  match o with
  | some s => if s = [] then false else true
  | none => false

/-- Settings read by publish.py's `queue_worker`; `db.get_config` returns
`None` for a missing key, hence the options. -/
structure PySettings where
  target_channel : Option String
  mode : Option String
  delay : Nat
  cfg : PyConfig

/-- Environment of one `queue_worker` iteration (publish.py): pause polls,
the active pack rows, the random indices, the emergency `get_sticker_set`
outcome (`none` is a raised error), whether `send_sticker` succeeds, and
the primary-delivery outcome. -/
structure PyEnv where
  pausePolls : Nat
  packs : List String
  packIdx : Nat
  fetchResult : Option (List String)
  docIdx : Nat
  stickerSendOk : Bool
  primary : PrimaryOutcome

/-- Lookup in the in-memory `state.sticker_cache` dictionary. -/
def cacheGet (cache : List (String × List String)) (k : String) : Option (List String) :=
  match cache with
  | [] => none
  | p :: rest => if p.1 = k then some p.2 else cacheGet rest k

/-- Assignment `state.sticker_cache[pack] = ids`. -/
def cacheSet (cache : List (String × List String)) (k : String) (v : List String) :
    List (String × List String) :=
  match cache with
  | [] => [(k, v)]
  | p :: rest => if p.1 = k then (k, v) :: rest else p :: cacheSet rest k v

/-- The send list of publish.py's sticker block: a send happens exactly
when a cached file id was chosen. -/
def pyStickerSendsOf (target : Int) (o : Option String) : List SendAction :=
  match o with
  | some fid => [SendAction.stickerSend target (.byFileId fid)]
  | none => []

/-- The sleep list of publish.py's sticker block: 1 second after a send. -/
def pyStickerSleepsOf (o : Option String) : List Nat :=
  match o with
  | some _ => [1]
  | none => []

/-- The sticker-interleave block of `queue_worker` (publish.py lines
485-504): with packs configured, pick one, emergency-fetch it into the
cache on a miss (a fetch error is swallowed), and if the cache now holds
ids for it, send a random one followed by a 1-second sleep; a send error is
logged and swallowed.  Returns the new cache, the sends and the sleeps. -/
def pyStickerBlock (env : PyEnv) (cache : List (String × List String)) (target : Int) :
    List (String × List String) × List SendAction × List Nat :=
  if env.packs = [] then (cache, [], [])
  else
    let pack := env.packs.getD (env.packIdx % env.packs.length) ""
    let cache' :=
      match cacheGet cache pack with
      | some _ => cache
      | none =>
        match env.fetchResult with
        | some ids => cacheSet cache pack ids
        | none => cache
    let cachedIds := (cacheGet cache' pack).getD []
    let chosen : Option String :=
      if cachedIds = [] then none
      else if env.stickerSendOk then
        some (cachedIds.getD (env.docIdx % cachedIds.length) "")
      else none
    (cache', pyStickerSendsOf target chosen, pyStickerSleepsOf chosen)

/-- The primary delivery `queue_worker` performs (publish.py lines 507-522):
forward in forward mode; in copy mode a text message is re-sent as text, a
media message is copied with the new caption, and a message with neither
truthy text nor media triggers no Telegram call at all. -/
def pyPrimaryAction (mode : Option String) (target : Int) (m : Msg) (finalText : Str) :
    Option SendAction :=
  if mode = some "forward" then some (.forwardMsg target m)
  else if truthyStr m.text then some (.sendText target finalText)
  else if m.media then some (.copyMsg target m finalText)
  else none

/-- `int(db.get_config("target_channel"))`: `None` or a non-integer raises. -/
def pyParseTarget (v : Option String) : Option Int :=
  match v with
  | some s => pyIntOf s
  | none => none

/-- Result of one completed `queue_worker` iteration. -/
structure PyCycleResult where
  queue : List Msg
  cache : List (String × List String)
  sent : List SendAction
  sleeps : List Nat
  processedInc : Nat
  errorsInc : Nat
  primaryAttempted : Bool
deriving DecidableEq

/-- One iteration of `queue_worker` (publish.py lines 467-539), `none` when
the single queue is empty (the loop suspends in `state.queue.get()`).
Mirrors the body in order: pause-poll loop; target parse (a failure lands
in the generic `except`, counting an error); the `target == 0` drop before
any send; the sticker block; the primary delivery with its `except` arms
(success bumps the processed counter and sleeps `delay`; `FloodWait e`
sleeps `e.value` and does not re-queue; any other exception counts an
error).  `finally: task_done` has no state effect. -/
def queue_worker_cycle (st : PySettings) (env : PyEnv) (queue : List Msg)
    (cache : List (String × List String)) : Option PyCycleResult :=
  match queue with
  | [] => none
  | m :: rest =>
    let pauseSleeps := List.replicate env.pausePolls 5
    match pyParseTarget st.target_channel with
    | none => some ⟨rest, cache, [], pauseSleeps, 0, 1, false⟩
    | some target =>
      if target = 0 then some ⟨rest, cache, [], pauseSleeps, 0, 0, false⟩
      else
        let sb := pyStickerBlock env cache target
        let finalText := apply_formatting st.cfg (pyOrElse m.text (pyOrElse m.caption []))
        match pyPrimaryAction st.mode target m finalText with
        | none =>
          some ⟨rest, sb.1, sb.2.1, pauseSleeps ++ sb.2.2 ++ [st.delay], 1, 0, false⟩
        | some act =>
          match env.primary with
          | .ok =>
            some ⟨rest, sb.1, sb.2.1 ++ [act], pauseSleeps ++ sb.2.2 ++ [st.delay],
              1, 0, true⟩
          | .floodWait r =>
            some ⟨rest, sb.1, sb.2.1, pauseSleeps ++ sb.2.2 ++ [r], 0, 0, true⟩
          | .rpcError =>
            some ⟨rest, sb.1, sb.2.1, pauseSleeps ++ sb.2.2, 0, 1, true⟩
          | .genericError =>
            some ⟨rest, sb.1, sb.2.1, pauseSleeps ++ sb.2.2, 0, 1, true⟩

/-- The sticker-independent view of a bot cycle result: primary deliveries,
queues, album tracker and counters. -/
def primaryView (r : CycleResult) : List SendAction × QState × Option Nat × Nat × Nat :=
  (primarySends r.sent, r.q, r.cursor, r.processedInc, r.errorsInc)

/-- The head of a `dropWhile` never satisfies the dropped predicate. -/
theorem head?_dropWhile_false {α : Type} (p : α → Bool) (l : List α) (c : α)
    (h : (List.dropWhile p l).head? = some c) : p c = false := by
  induction l with
  | nil => simp [List.dropWhile] at h
  | cons a as ih =>
    rw [List.dropWhile_cons] at h
    by_cases hp : p a
    · rw [if_pos hp] at h
      exact ih h
    · rw [if_neg hp] at h
      simp at h
      subst h
      simpa using hp

/-- A non-empty `dropWhile` keeps the original last element. -/
theorem getLast?_dropWhile_ne_nil {α : Type} (p : α → Bool) (l : List α)
    (h : List.dropWhile p l ≠ []) : (List.dropWhile p l).getLast? = l.getLast? := by
  induction l with
  | nil => simp [List.dropWhile] at h
  | cons a as ih =>
    rw [List.dropWhile_cons]
    by_cases hp : p a
    · rw [List.dropWhile_cons, if_pos hp] at h
      have has : as ≠ [] := by
        intro e
        subst e
        simp [List.dropWhile] at h
      rw [if_pos hp, ih h]
      cases as with
      | nil => exact absurd rfl has
      | cons b bs => rw [List.getLast?_cons_cons]
    · rw [if_neg hp]

/-- Stripped text has no leading whitespace. -/
theorem stripPy_head (l : Str) (c : Char) (h : (stripPy l).head? = some c) :
    pyIsSpace c = false := by
  unfold stripPy at h
  rw [List.head?_reverse] at h
  have hne : List.dropWhile pyIsSpace (List.dropWhile pyIsSpace l).reverse ≠ [] := by
    intro e
    rw [e] at h
    simp at h
  rw [getLast?_dropWhile_ne_nil _ _ hne, List.getLast?_reverse] at h
  exact head?_dropWhile_false _ _ _ h

/-- Stripped text has no trailing whitespace. -/
theorem stripPy_getLast (l : Str) (c : Char) (h : (stripPy l).getLast? = some c) :
    pyIsSpace c = false := by
  unfold stripPy at h
  rw [List.getLast?_reverse] at h
  exact head?_dropWhile_false _ _ _ h

/-- Deleting regex matches only removes characters. -/
theorem reSubGo_sublist (m : Str → Option Nat) :
    ∀ (fuel : Nat) (l : Str), List.Sublist (reSubGo m fuel l) l
  | 0, l => by
    rw [reSubGo]
  | fuel + 1, [] => by
    rw [reSubGo]
  | fuel + 1, c :: cs => by
    rw [reSubGo]
    cases hm : m (c :: cs) with
    | some n =>
      exact ((reSubGo_sublist m fuel _).trans (List.drop_sublist _ _)).trans
        (List.sublist_cons_self _ _)
    | none => exact List.cons_sublist_cons.mpr (reSubGo_sublist m fuel cs)

/-- `re.sub` with the empty replacement yields a subsequence of the input. -/
theorem reSubDel_sublist (m : Str → Option Nat) (l : Str) :
    List.Sublist (reSubDel m l) l :=
  reSubGo_sublist m l.length l

/-- Stripping yields a subsequence of the input. -/
theorem stripPy_sublist (l : Str) : List.Sublist (stripPy l) l := by
  unfold stripPy
  have h2 : List.Sublist (List.dropWhile pyIsSpace (List.dropWhile pyIsSpace l).reverse)
      (List.dropWhile pyIsSpace l).reverse := List.dropWhile_sublist _
  have h3 := h2.reverse
  rw [List.reverse_reverse] at h3
  exact h3.trans (List.dropWhile_sublist _)

/-- The cleaner branch of worker_engine only removes characters. -/
theorem cleanCaption_sublist (t : Str) : List.Sublist (cleanCaption t) t :=
  (stripPy_sublist _).trans ((reSubDel_sublist _ _).trans (reSubDel_sublist _ _))

/-- C1: at every dequeue decision of worker_engine, a non-empty priority
lane wins: with both lanes non-empty the dequeued item is the head of the
VIP lane and the normal lane is untouched; and whenever an item is dequeued
from the normal lane, the priority lane was empty at the decision. -/
theorem priority_lane_precedence :
    (∀ (s : QState) (m : Msg) (rest : List Msg), s.vip_queue = m :: rest →
      s.msg_queue ≠ [] →
      fetchMessage s = some (m, true, ⟨rest, s.msg_queue⟩)) ∧
    (∀ (s : QState) (m : Msg) (s' : QState),
      fetchMessage s = some (m, false, s') → s.vip_queue = []) := by
  constructor
  · intro s m rest hv _hn
    unfold fetchMessage
    rw [hv]
  · intro s m s' h
    unfold fetchMessage at h
    cases hv : s.vip_queue with
    | nil => rfl
    | cons a as =>
      rw [hv] at h
      simp at h

/-- Witness for priority_lane_precedence at a concrete two-lane state. -/
theorem priority_lane_precedence_witness :
    ((⟨[⟨some (str "v"), none, none, false⟩], [⟨some (str "n"), none, none, false⟩]⟩ :
        QState).msg_queue ≠ []) ∧
    fetchMessage ⟨[⟨some (str "v"), none, none, false⟩], [⟨some (str "n"), none, none, false⟩]⟩
      = some (⟨some (str "v"), none, none, false⟩, true,
          ⟨[], [⟨some (str "n"), none, none, false⟩]⟩) :=
  ⟨by decide, priority_lane_precedence.1 _ _ _ rfl (by decide)⟩

/-- C3: for the group-marker run [1, 1, 2, None] the engine's
sticker-attempt pattern is exactly [yes, no, yes, yes]; in general an
ungrouped item always attempts a sticker, a grouped item is suppressed
exactly when its marker equals the tracked previous marker, and the
tracker always becomes the processed item's marker. -/
theorem album_sticker_pattern :
    engineStickerDecisions
        [⟨some (str "A"), none, some 1, true⟩, ⟨some (str "B"), none, some 1, true⟩,
          ⟨some (str "C"), none, some 2, true⟩, ⟨some (str "D"), none, none, false⟩]
      = [true, false, true, true] ∧
    (∀ c : Option Nat, (stickerStep c none).1 = true) ∧
    (∀ (c : Option Nat) (g : Nat), ((stickerStep c (some g)).1 = false ↔ c = some g)) ∧
    (∀ (c g : Option Nat), (stickerStep c g).2 = g) := by
  refine ⟨by decide, fun c => rfl, ?_, ?_⟩
  · intro c g
    simp only [stickerStep]
    by_cases h : some g = c
    · rw [if_pos h]
      simpa using h.symm
    · rw [if_neg h]
      simp
      exact fun e => h e.symm
  · intro c g
    cases g with
    | none => rfl
    | some g =>
      simp only [stickerStep]
      by_cases h : some g = c
      · rw [if_pos h]
        exact h.symm
      · rw [if_neg h]

/-- C7 counterexample: with both lanes empty the engine suspends inside
`msg_queue.get()`; enqueuing an item into the priority lane does not let
the pending dequeue complete, so that item is not what the pending dequeue
returns. -/
theorem vip_enqueue_does_not_resume :
    engineStep ⟨.checkVip, [], []⟩ = some ⟨.getNormal, [], []⟩ ∧
    engineStep (enqW ⟨.getNormal, [], []⟩ ⟨some (str "urgent"), none, none, false⟩ true)
      = none := by
  exact ⟨rfl, rfl⟩

/-- C7 amended: with both lanes empty the engine suspends on the normal
lane's `get`; the first item enqueued into the normal lane is exactly what
the pending dequeue returns, while items enqueued into the priority lane
alone never resume it. -/
theorem dequeue_resume_on_normal_only :
    engineStep ⟨.checkVip, [], []⟩ = some ⟨.getNormal, [], []⟩ ∧
    (∀ (v : List Msg) (m : Msg) (n : List Msg),
      engineStep ⟨.getNormal, v, m :: n⟩ = some ⟨.processing m false, v, n⟩) ∧
    (∀ v : List Msg, engineStep ⟨.getNormal, v, []⟩ = none) :=
  ⟨rfl, fun _ _ _ => rfl, fun _ => rfl⟩

/-- C8 counterexample: with the cleaner OFF and no footer, worker_engine's
caption preparation returns the raw text unchanged, whitespace included:
on " hi " the result still begins with a space, so the final result is not
trimmed for every settings combination. -/
theorem caption_not_trimmed_in_bot :
    prepareFinalText false (str "NONE") (str " hi ") = str " hi " ∧
    (prepareFinalText false (str "NONE") (str " hi ")).head? = some ' ' ∧
    pyIsSpace ' ' = true := by decide

/-- C8 amended: publish.py's `TextProcessor.apply_formatting` does trim as
the last step — its output never has leading or trailing whitespace, for
every configuration and every raw text; publish_bot.py's inline transform
strips only inside the cleaner branch, before the footer merge, and gives
no such guarantee. -/
theorem apply_formatting_trimmed (cfg : PyConfig) (t : Str) :
    (∀ c : Char, (apply_formatting cfg t).head? = some c → pyIsSpace c = false) ∧
    (∀ c : Char, (apply_formatting cfg t).getLast? = some c → pyIsSpace c = false) := by
  constructor <;> intro c h <;> unfold apply_formatting at h <;> by_cases ht : t = []
  · rw [if_pos ht] at h
    simp at h
  · rw [if_neg ht] at h
    exact stripPy_head _ _ h
  · rw [if_pos ht] at h
    simp at h
  · rw [if_neg ht] at h
    exact stripPy_getLast _ _ h

/-- Witness for apply_formatting_trimmed at a concrete config and text. -/
theorem apply_formatting_trimmed_witness :
    (apply_formatting ⟨some "1", some (str "H"), some (str "F ")⟩ (str " x ")).head?
        = some 'H' ∧
    pyIsSpace 'H' = false :=
  ⟨by decide,
    (apply_formatting_trimmed ⟨some "1", some (str "H"), some (str "F ")⟩ (str " x ")).1 'H'
      (by decide)⟩

/-- C9 counterexample: with link-stripping ON, a URL whose scheme is not
http survives the caption transform unchanged — the cleaner's pattern is
`http\S+`, not every scheme. -/
theorem non_http_scheme_not_removed :
    prepareFinalText true (str "NONE") (str "see ftp://x.co") = str "see ftp://x.co" ∧
    containsStr (str "://") (prepareFinalText true (str "NONE") (str "see ftp://x.co"))
      = true := by decide

/-- C9 amended: when the flag is Off the text passes through the transform
unchanged (no removal); when On the cleaner only deletes characters, and
what it deletes are the `http`-initial tokens and `@`-word mentions, as on
the spec's own example. -/
theorem link_stripping_behaviour :
    (∀ t : Str, prepareFinalText false (str "NONE") t = t) ∧
    (∀ t : Str, List.Sublist (cleanCaption t) t) ∧
    prepareFinalText true (str "NONE") (str "Check http://x.co and @bob")
      = str "Check  and" := by
  refine ⟨?_, cleanCaption_sublist, by decide⟩
  intro t
  simp [prepareFinalText]

/-- C10: the VIP tag is computed from the caption alone: routing is
invariant under changes to everything but the caption; a caption-less
message (every plain-text message) goes to the normal lane even when its
text body carries a priority hashtag; and a caption with such a hashtag in
any letter case goes to the VIP lane. -/
theorem vip_tag_from_caption_only :
    (∀ m₁ m₂ : Msg, m₁.caption = m₂.caption → is_vip_intake m₁ = is_vip_intake m₂) ∧
    (∀ (q : QState) (m : Msg), m.caption = none →
      message_processor_enqueue q m = ⟨q.vip_queue, q.msg_queue ++ [m]⟩) ∧
    message_processor_enqueue ⟨[], []⟩ ⟨some (str "breaking #urgent news"), none, none, false⟩
      = ⟨[], [⟨some (str "breaking #urgent news"), none, none, false⟩]⟩ ∧
    message_processor_enqueue ⟨[], []⟩ ⟨none, some (str "Breaking #VIP now"), none, true⟩
      = ⟨[⟨none, some (str "Breaking #VIP now"), none, true⟩], []⟩ := by
  refine ⟨?_, ?_, by decide, by decide⟩
  · intro m₁ m₂ h
    unfold is_vip_intake
    rw [h]
  · intro q m h
    have hv : is_vip_intake m = false := by
      unfold is_vip_intake
      rw [h]
      decide
    unfold message_processor_enqueue
    rw [hv]
    simp

/-- Witness for vip_tag_from_caption_only at concrete messages. -/
theorem vip_tag_from_caption_only_witness :
    (⟨some (str "x"), some (str "c"), none, false⟩ : Msg).caption
        = (⟨none, some (str "c"), none, true⟩ : Msg).caption ∧
    is_vip_intake ⟨some (str "x"), some (str "c"), none, false⟩
        = is_vip_intake ⟨none, some (str "c"), none, true⟩ ∧
    (⟨some (str "#vip"), none, none, false⟩ : Msg).caption = none ∧
    message_processor_enqueue ⟨[], []⟩ ⟨some (str "#vip"), none, none, false⟩
        = ⟨[], [⟨some (str "#vip"), none, none, false⟩]⟩ :=
  ⟨rfl, vip_tag_from_caption_only.1 _ _ rfl, rfl,
    vip_tag_from_caption_only.2.1 _ _ rfl⟩

/-- Sticker sends vanish under the primary-send filter. -/
theorem primarySends_stickerSendsOf (t : Int) (o : Option StickerSent)
    (l : List SendAction) :
    primarySends (stickerSendsOf t o ++ l) = primarySends l := by
  cases o <;> simp [stickerSendsOf, primarySends, isPrimary]

/-- Sticker sends alone have no primary part. -/
theorem primarySends_stickerSendsOf_nil (t : Int) (o : Option StickerSent) :
    primarySends (stickerSendsOf t o) = [] := by
  cases o <;> simp [stickerSendsOf, primarySends, isPrimary]

/-- A chosen-file send list has no primary part. -/
theorem primarySends_pyStickerSendsOf (t : Int) (o : Option String) :
    primarySends (pyStickerSendsOf t o) = [] := by
  cases o <;> simp [pyStickerSendsOf, primarySends, isPrimary]

/-- The publish.py sticker block contributes no primary sends either. -/
theorem pyStickerBlock_primary (env : PyEnv) (cache : List (String × List String))
    (t : Int) : primarySends (pyStickerBlock env cache t).2.1 = [] := by
  unfold pyStickerBlock
  split
  · rfl
  · exact primarySends_pyStickerSendsOf _ _

/-- Unfolding lemma: a dequeued pair contributes to its own lane only. -/
theorem dequeuedLane_cons (vip : Bool) (m : Msg) (b : Bool) (outs : List (Msg × Bool)) :
    dequeuedLane vip ((m, b) :: outs)
      = if b = vip then m :: dequeuedLane vip outs else dequeuedLane vip outs := by
  simp only [dequeuedLane, List.filterMap_cons]
  by_cases h : b = vip
  · rw [if_pos h, if_pos h]
  · rw [if_neg h, if_neg h]

/-- Unfolding lemma: an enqueue event contributes to its own lane only. -/
theorem enqueuedLane_cons_enq (vip : Bool) (m : Msg) (b : Bool) (es : List QEvent) :
    enqueuedLane vip (QEvent.enq m b :: es)
      = if b = vip then m :: enqueuedLane vip es else enqueuedLane vip es := by
  simp only [enqueuedLane, List.filterMap_cons]
  by_cases h : b = vip
  · rw [if_pos h, if_pos h]
  · rw [if_neg h, if_neg h]

/-- Unfolding lemma: a dequeue event enqueues nothing. -/
theorem enqueuedLane_cons_deq (vip : Bool) (es : List QEvent) :
    enqueuedLane vip (QEvent.deq :: es) = enqueuedLane vip es := by
  simp only [enqueuedLane, List.filterMap_cons]

/-- C2: strict FIFO per lane with neither loss nor duplication: over any
single-consumer trace of enqueues and dequeues, and for each lane, the
items dequeued from that lane so far followed by the items still in it are
exactly the items initially in it followed by the items enqueued into it,
in order. -/
theorem lane_fifo_invariant (vip : Bool) (tr : List QEvent) :
    ∀ s : QState,
      dequeuedLane vip (runQ s tr).2 ++ laneOf vip (runQ s tr).1
        = laneOf vip s ++ enqueuedLane vip tr := by
  induction tr with
  | nil =>
    intro s
    simp [runQ, dequeuedLane, enqueuedLane]
  | cons e es ih =>
    intro s
    cases e with
    | enq m b =>
      cases b <;> cases vip <;>
        simp only [runQ, stepQ, List.nil_append] <;>
        rw [ih] <;>
        simp [enqueuedLane_cons_enq, laneOf, List.append_assoc]
    | deq =>
      cases hv : s.vip_queue with
      | cons a as =>
        have hf : fetchMessage s = some (a, true, ⟨as, s.msg_queue⟩) := by
          unfold fetchMessage
          rw [hv]
        simp only [runQ, stepQ, hf, List.singleton_append, dequeuedLane_cons,
          enqueuedLane_cons_deq]
        by_cases hb : vip = true
        · subst hb
          rw [if_pos rfl, List.cons_append, ih]
          simp [laneOf, hv]
        · have hb' : vip = false := by
            cases vip
            · rfl
            · exact absurd rfl hb
          subst hb'
          rw [if_neg (by decide), ih]
          simp [laneOf]
      | nil =>
        cases hm : s.msg_queue with
        | cons a as =>
          have hf : fetchMessage s = some (a, false, ⟨[], as⟩) := by
            unfold fetchMessage
            rw [hv, hm]
          simp only [runQ, stepQ, hf, List.singleton_append, dequeuedLane_cons,
            enqueuedLane_cons_deq]
          by_cases hb : vip = true
          · subst hb
            rw [if_neg (by decide), ih]
            simp [laneOf, hv]
          · have hb' : vip = false := by
              cases vip
              · rfl
              · exact absurd rfl hb
            subst hb'
            rw [if_pos rfl, List.cons_append, ih]
            simp [laneOf, hm]
        | nil =>
          have hf : fetchMessage s = none := by
            unfold fetchMessage
            rw [hv, hm]
          simp only [runQ, stepQ, hf, List.nil_append, enqueuedLane_cons_deq]
          exact ih s

/-- C6: when the configured destination is the unset sentinel "0" a
dequeued item is discarded: nothing is sent (no sticker, no content), no
counters move, the album tracker is untouched, and the loop continues
normally to the next dequeue.  Both workers behave this way (publish.py
reaches the drop via `int("0") == 0`). -/
theorem unset_target_drops_item :
    (∀ (st : Settings) (env : Env) (q : QState) (cur : Option Nat) (m : Msg) (b : Bool)
        (q' : QState), fetchMessage q = some (m, b, q') → st.target_channel = "0" →
      worker_engine_cycle st env q cur
        = some ⟨q', cur, [], List.replicate env.pausePolls 5, 0, 0, false⟩) ∧
    (∀ (st : PySettings) (env : PyEnv) (m : Msg) (rest : List Msg)
        (cache : List (String × List String)),
      pyParseTarget st.target_channel = some 0 →
      queue_worker_cycle st env (m :: rest) cache
        = some ⟨rest, cache, [], List.replicate env.pausePolls 5, 0, 0, false⟩) := by
  constructor
  · intro st env q cur m b q' hf h0
    simp only [worker_engine_cycle, hf]
    rw [if_pos h0]
  · intro st env m rest cache hp
    simp only [queue_worker_cycle, hp]
    simp

/-- Witness for unset_target_drops_item on concrete states of both workers. -/
theorem unset_target_drops_item_witness :
    fetchMessage ⟨[], [⟨some (str "hello"), none, none, false⟩]⟩
      = some (⟨some (str "hello"), none, none, false⟩, false, ⟨[], []⟩) ∧
    pyParseTarget (some "0") = some 0 ∧
    worker_engine_cycle ⟨"0", "copy", str "NONE", "OFF", 30, "ON", "RANDOM", ""⟩
        ⟨0, [], ⟨0, fun _ => none, 0, true, true⟩, .ok⟩
        ⟨[], [⟨some (str "hello"), none, none, false⟩]⟩ none
      = some ⟨⟨[], []⟩, none, [], List.replicate 0 5, 0, 0, false⟩ ∧
    queue_worker_cycle ⟨some "0", some "copy", 3, ⟨none, none, none⟩⟩
        ⟨0, [], 0, none, 0, true, .ok⟩ [⟨some (str "hello"), none, none, false⟩] []
      = some ⟨[], [], [], List.replicate 0 5, 0, 0, false⟩ :=
  ⟨rfl, by decide, unset_target_drops_item.1 _ _ _ _ _ _ _ rfl rfl,
    unset_target_drops_item.2 _ _ _ _ _ (by decide)⟩

/-- C4: a FloodWait carrying retry_after seconds makes the engine sleep
exactly retry_after (hence at least retry_after) as the last act of the
iteration, before the next dequeue; the triggering item is dropped: the
lanes keep only the items that were behind it, nothing is re-enqueued, so
an item that occurred once is afterwards in neither lane, and its primary
payload is never delivered.  Both workers. -/
theorem floodwait_backoff_drops_item :
    (∀ (st : Settings) (env : Env) (q : QState) (cur : Option Nat) (m : Msg) (b : Bool)
        (q' : QState) (r : Nat) (t : Int),
      fetchMessage q = some (m, b, q') →
      env.primary = .floodWait r →
      st.target_channel ≠ "0" →
      pyIntOf st.target_channel = some t →
      ∃ res : CycleResult,
        worker_engine_cycle st env q cur = some res ∧
        res.sleeps.getLast? = some r ∧
        res.q = q' ∧
        primarySends res.sent = [] ∧
        (m ∉ q'.vip_queue → m ∉ res.q.vip_queue) ∧
        (m ∉ q'.msg_queue → m ∉ res.q.msg_queue)) ∧
    (∀ (st : PySettings) (env : PyEnv) (m : Msg) (rest : List Msg)
        (cache : List (String × List String)) (r : Nat) (t : Int) (a : SendAction),
      env.primary = .floodWait r →
      pyParseTarget st.target_channel = some t →
      t ≠ 0 →
      pyPrimaryAction st.mode t m
          (apply_formatting st.cfg (pyOrElse m.text (pyOrElse m.caption []))) = some a →
      ∃ res : PyCycleResult,
        queue_worker_cycle st env (m :: rest) cache = some res ∧
        res.sleeps.getLast? = some r ∧
        res.queue = rest ∧
        primarySends res.sent = [] ∧
        (m ∉ rest → m ∉ res.queue)) := by
  constructor
  · intro st env q cur m b q' r t hf hp h0 ht
    simp only [worker_engine_cycle, hf, ht, hp]
    rw [if_neg h0]
    refine ⟨_, rfl, ?_, rfl, ?_, fun h => h, fun h => h⟩
    · exact List.getLast?_concat _
    · exact primarySends_stickerSendsOf_nil _ _
  · intro st env m rest cache r t a hp hparse ht0 hact
    simp only [queue_worker_cycle, hparse, hact, hp]
    rw [if_neg ht0]
    refine ⟨_, rfl, ?_, rfl, ?_, fun h => h⟩
    · exact List.getLast?_concat _
    · exact pyStickerBlock_primary _ _ _

/-- Witness for floodwait_backoff_drops_item on concrete cycles of both
workers, with retry_after = 5. -/
theorem floodwait_backoff_drops_item_witness :
    fetchMessage ⟨[], [⟨some (str "hello"), none, none, false⟩]⟩
      = some (⟨some (str "hello"), none, none, false⟩, false, ⟨[], []⟩) ∧
    pyIntOf "-100" = some (-100) ∧
    (∃ res : CycleResult,
      worker_engine_cycle ⟨"-100", "copy", str "NONE", "OFF", 30, "OFF", "RANDOM", ""⟩
          ⟨0, [], ⟨0, fun _ => none, 0, true, true⟩, .floodWait 5⟩
          ⟨[], [⟨some (str "hello"), none, none, false⟩]⟩ none = some res ∧
      res.sleeps.getLast? = some 5 ∧
      res.q = ⟨[], []⟩ ∧
      primarySends res.sent = [] ∧
      (⟨some (str "hello"), none, none, false⟩ ∉ (⟨[], []⟩ : QState).vip_queue →
        ⟨some (str "hello"), none, none, false⟩ ∉ res.q.vip_queue) ∧
      (⟨some (str "hello"), none, none, false⟩ ∉ (⟨[], []⟩ : QState).msg_queue →
        ⟨some (str "hello"), none, none, false⟩ ∉ res.q.msg_queue)) ∧
    (∃ res : PyCycleResult,
      queue_worker_cycle ⟨some "-100", some "forward", 3, ⟨none, none, none⟩⟩
          ⟨0, [], 0, none, 0, true, .floodWait 5⟩
          [⟨some (str "hello"), none, none, false⟩] [] = some res ∧
      res.sleeps.getLast? = some 5 ∧
      res.queue = [] ∧
      primarySends res.sent = [] ∧
      (⟨some (str "hello"), none, none, false⟩ ∉ ([] : List Msg) →
        ⟨some (str "hello"), none, none, false⟩ ∉ res.queue)) :=
  ⟨rfl, by decide,
    floodwait_backoff_drops_item.1 _ _ _ _ _ _ _ _ (-100) rfl rfl (by decide) (by decide),
    floodwait_backoff_drops_item.2 _ _ _ _ _ _ (-100) _ rfl (by decide) (by decide) rfl⟩

/-- C5: the sticker step cannot block or alter the primary pipeline: the
primary-relevant view of a worker cycle (primary sends, queues, album
tracker, counters) is identical for any two sticker environments and pack
inventories — including resolution failures, empty packs and send errors,
all of which `send_smart_sticker` swallows — and whenever a destination is
configured the primary delivery is attempted whatever the sticker step
did. -/
theorem sticker_step_cannot_block_primary :
    (∀ (st : Settings) (q : QState) (cur : Option Nat) (p : Nat) (pr : PrimaryOutcome)
        (packs₁ packs₂ : List String) (s₁ s₂ : StickerEnv),
      Option.map primaryView (worker_engine_cycle st ⟨p, packs₁, s₁, pr⟩ q cur)
        = Option.map primaryView (worker_engine_cycle st ⟨p, packs₂, s₂, pr⟩ q cur)) ∧
    (∀ (st : Settings) (env : Env) (q : QState) (cur : Option Nat) (m : Msg) (b : Bool)
        (q' : QState) (t : Int),
      fetchMessage q = some (m, b, q') →
      st.target_channel ≠ "0" →
      pyIntOf st.target_channel = some t →
      ∃ res : CycleResult,
        worker_engine_cycle st env q cur = some res ∧ res.primaryAttempted = true) := by
  constructor
  · intro st q cur p pr packs₁ packs₂ s₁ s₂
    cases hf : fetchMessage q with
    | none => simp only [worker_engine_cycle, hf]
    | some trip =>
      obtain ⟨m, b, q'⟩ := trip
      simp only [worker_engine_cycle, hf]
      by_cases h0 : st.target_channel = "0"
      · rw [if_pos h0, if_pos h0]
      · rw [if_neg h0, if_neg h0]
        cases ht : pyIntOf st.target_channel with
        | none => simp only [ht]
        | some t =>
          simp only [ht]
          cases pr <;>
            simp [primaryView, primarySends_stickerSendsOf,
              primarySends_stickerSendsOf_nil]
  · intro st env q cur m b q' t hf h0 ht
    cases env with
    | mk p packs senv pr =>
      simp only [worker_engine_cycle, hf, ht]
      rw [if_neg h0]
      cases pr <;> exact ⟨_, rfl, rfl⟩

/-- Witness for sticker_step_cannot_block_primary: a failing sticker
environment against a working one, and a concrete attempted delivery. -/
theorem sticker_step_cannot_block_primary_witness :
    Option.map primaryView
        (worker_engine_cycle ⟨"-100", "copy", str "NONE", "OFF", 30, "ON", "RANDOM", ""⟩
          ⟨0, ["t.me/addstickers/A"], ⟨0, fun _ => none, 0, true, true⟩, .ok⟩
          ⟨[], [⟨some (str "hello"), none, none, false⟩]⟩ none)
      = Option.map primaryView
        (worker_engine_cycle ⟨"-100", "copy", str "NONE", "OFF", 30, "ON", "RANDOM", ""⟩
          ⟨0, [], ⟨0, fun _ => some [7], 0, false, false⟩, .ok⟩
          ⟨[], [⟨some (str "hello"), none, none, false⟩]⟩ none) ∧
    fetchMessage ⟨[], [⟨some (str "hello"), none, none, false⟩]⟩
      = some (⟨some (str "hello"), none, none, false⟩, false, ⟨[], []⟩) ∧
    (∃ res : CycleResult,
      worker_engine_cycle ⟨"-100", "copy", str "NONE", "OFF", 30, "ON", "RANDOM", ""⟩
          ⟨0, ["t.me/addstickers/A"], ⟨0, fun _ => none, 0, true, true⟩, .ok⟩
          ⟨[], [⟨some (str "hello"), none, none, false⟩]⟩ none = some res ∧
      res.primaryAttempted = true) :=
  ⟨sticker_step_cannot_block_primary.1 _ _ _ _ _ _ _ _ _, rfl,
    sticker_step_cannot_block_primary.2 _ _ _ _ _ _ _ (-100) rfl (by decide) (by decide)⟩

end TGF
